import Mathlib

/-!
Verification of the OpenGL learning demo (`src/main.c`) against its
natural-language specification.

The development shallowly embeds the program:
* `read_entire_file` models the C file loader.  A file system is a partial
  map from paths to byte lists; `malloc` yields an uninitialized buffer
  (`none` entries); every store through a buffer index is checked against
  the allocation length and out-of-bounds stores are recorded rather than
  performed.  A missing file makes `fopen` return a null handle, and the
  unchecked `ftell` on it is undefined behavior, modelled as `none`.
* `mainRun` transliterates `main` as a trace of observable GLFW/OpenGL
  effects together with an outcome (crashed / still running / exited with a
  code), parameterised by an environment supplying everything the C program
  reads from outside: the two shader files, the results of the GLFW, window
  and GLAD initialisation calls, the shader/program status values the GL
  driver reports, and the per-iteration input events of the render loop.
-/

/-- A byte as read from a file. -/
abbrev Byte := Nat

/-- `FILE*` state after a successful `fopen(filename, "rb")`: the file's
bytes and the current position (0 right after opening). -/
structure FileHandle where
  content : List Byte
  pos : Nat
deriving DecidableEq

/-- `fopen(filename, "rb")` on a file system that may lack the file:
`none` is a `NULL` handle. -/
def fopen (fs : Option (List Byte)) : Option FileHandle :=
  fs.map (fun c => { content := c, pos := 0 })

/-- `ftell(file)`.  The source calls it on the handle returned by `fopen`
with no null check; on a `NULL` handle the call is undefined behavior,
modelled as `none`. -/
def ftell (h : Option FileHandle) : Option Nat :=
  h.map (fun f => f.pos)

/-- The C `struct file_contents`: a data pointer and a size.  The buffer is
a list of `Option Byte`, where `none` is an uninitialized (never written)
byte of the allocation. -/
structure file_contents where
  data : List (Option Byte)
  size : Nat
deriving DecidableEq

/-- What one call of the loader body produces: the returned record, the
exact number of bytes `malloc` allocated for `data`, and the indices of the
stores that fell outside the allocation (valid indices are
`0 .. allocSize - 1`). -/
structure ReadResult where
  result : file_contents
  allocSize : Nat
  oobWrites : List Nat
deriving DecidableEq

/-- `malloc(n)`: `n` bytes, none of them initialized. -/
def mallocBuf (n : Nat) : List (Option Byte) :=
  List.replicate n none

/-- `fread(buf, 1, n, file)` with the file positioned at the start of
`avail`: the first `n` bytes of `buf` are overwritten with the file's
bytes, the rest of the buffer is untouched. -/
def freadInto (buf : List (Option Byte)) (avail : List Byte) (n : Nat) : List (Option Byte) :=
  (avail.take n).map some ++ buf.drop n

/-- A store `buf[i] = v`: performed when `i` is inside the allocation,
recorded as an out-of-bounds index otherwise. -/
def bufWrite (buf : List (Option Byte)) (i : Nat) (v : Byte) : List (Option Byte) × List Nat :=
  if i < buf.length then (buf.set i (some v), []) else (buf, [i])

/-- The body of `read_entire_file` (src/main.c lines 18..28) once `fopen`
has produced a valid handle whose position is `cur_pos`:
`fseek(file, 0L, SEEK_END); result.size = ftell(file) + 1;
fseek(file, cur_pos, SEEK_SET); result.data = malloc(result.size);
fread(result.data, 1, result.size - 1, file); fclose(file);
result.data[result.size] = 0;`. -/
def read_entire_file_body (content : List Byte) (cur_pos : Nat) : ReadResult :=
  let size := content.length + 1
  let data0 := mallocBuf size
  let data1 := freadInto data0 (content.drop cur_pos) (size - 1)
  let w := bufWrite data1 size 0
  { result := { data := w.1, size := size }, allocSize := size, oobWrites := w.2 }

/-- `read_entire_file` (src/main.c lines 16..29).  The handle from `fopen`
is passed straight to `ftell` with no null check, so a missing file
(`fopen` = `NULL`) is undefined behavior, modelled as `none`. -/
def read_entire_file (fs : Option (List Byte)) : Option ReadResult :=
  let file := fopen fs
  match file, ftell file with
  | some f, some cur_pos => some (read_entire_file_body f.content cur_pos)
  | _, _ => none

/-- The loader applied to a named file of a file system, as `main` calls it
on the two shader paths. -/
def read_entire_file_at (fileSystem : String → Option (List Byte)) (filename : String) :
    Option ReadResult :=
  read_entire_file (fileSystem filename)

/-! ## The main program as a trace of observable effects -/

/-- OpenGL enum `GL_COMPILE_STATUS`. -/
def GL_COMPILE_STATUS : Nat := 0x8B81

/-- OpenGL enum `GL_LINK_STATUS`. -/
def GL_LINK_STATUS : Nat := 0x8B82

/-- OpenGL enum `GL_STATIC_DRAW`. -/
def GL_STATIC_DRAW : Nat := 0x88E4

/-- OpenGL enum `GL_TRIANGLES`. -/
def GL_TRIANGLES : Nat := 0x0004

/-- OpenGL enum `GL_UNSIGNED_INT`. -/
def GL_UNSIGNED_INT : Nat := 0x1405

/-- OpenGL mask `GL_COLOR_BUFFER_BIT`. -/
def GL_COLOR_BUFFER_BIT : Nat := 0x00004000

/-- GLFW hint `GLFW_CONTEXT_VERSION_MAJOR`. -/
def GLFW_CONTEXT_VERSION_MAJOR : Nat := 0x00022002

/-- GLFW hint `GLFW_CONTEXT_VERSION_MINOR`. -/
def GLFW_CONTEXT_VERSION_MINOR : Nat := 0x00022003

/-- The two shader stages the program compiles. -/
inductive ShaderKind where
  | vertex
  | fragment
deriving DecidableEq

/-- The resize callbacks defined in the source: `framebuffer_size_callback`
(registered with `glfwSetFramebufferSizeCallback`) and
`window_size_callback` (defined at lines 34..39 but never registered). -/
inductive CallbackId where
  | framebufferSize
  | windowSize
deriving DecidableEq

/-- The three 512-byte stack buffers of `main` that receive GL info logs:
`vs_infolog`, `fs_infolog` and `sp_infolog`. -/
inductive BufId where
  | vs
  | fs
  | sp
deriving DecidableEq

/-- Targets of `glBindBuffer`/`glBufferData` used by the program. -/
inductive BufTarget where
  | arrayBuffer
  | elementArrayBuffer
deriving DecidableEq

/-- The geometry-setup calls of `main` (lines 142..187), with the handle
variables named as in the source. -/
inductive SetupCmd where
  | genVertexArrays (n : Nat) (handle : String)
  | genBuffers (n : Nat) (handle : String)
  | bindVertexArray (handle : String)
  | bindBuffer (target : BufTarget) (handle : String)
  | bufferDataF (target : BufTarget) (data : List Rat) (usage : Nat)
  | bufferDataU (target : BufTarget) (data : List Nat) (usage : Nat)
  | vertexAttribPointer (index : Nat) (comps : Nat)
  | enableVertexAttribArray (index : Nat)
deriving DecidableEq

/-- The calls of one render-loop body (lines 195..207). -/
inductive RenderCmd where
  | clearColor (r g b a : Rat)
  | clear (mask : Nat)
  | useProgram
  | bindVertexArray (handle : String)
  | drawElements (mode : Nat) (count : Nat) (ty : Nat)
deriving DecidableEq

/-- One observable effect of `main`, in source order. -/
inductive Eff where
  | readFileEff (path : String)
  | glfwInitEff (ret : Bool)
  | windowHint (hint : Nat) (value : Nat)
  | createWindow (width : Int) (height : Int) (title : String)
  | printLine (msg : String)
  | glfwTerminateEff
  | makeContextCurrent
  | registerCallback (cb : CallbackId)
  | gladLoad (ok : Bool)
  | createShader (kind : ShaderKind)
  | shaderSource (kind : ShaderKind)
  | compileShader (kind : ShaderKind)
  | getShaderiv (kind : ShaderKind) (pname : Nat)
  | getShaderInfoLog (kind : ShaderKind) (buf : BufId)
  | printShaderError (tag : String) (buf : BufId)
  | createProgram
  | attachShader (kind : ShaderKind)
  | linkProgram
  | getProgramiv (pname : Nat)
  | getProgramInfoLog (buf : BufId)
  | printProgramError (tag : String) (buf : BufId)
  | useProgram
  | deleteShader (kind : ShaderKind)
  | setupCmd (c : SetupCmd)
  | renderCmd (c : RenderCmd)
  | swapBuffers
  | pollEvents
deriving DecidableEq

/-- The triangle vertex array `vertices` (lines 81..85): 3 vertices of 3
floats each, uploaded into the first vertex buffer but never drawn. -/
def vertices : List Rat := [-1/2, -1/2, 0, 1/2, -1/2, 0, 0, 1/2, 0]

/-- The rectangle vertex array `rect_vertices` (lines 160..165): 4 vertices
of 3 floats each. -/
def rect_vertices : List Rat := [1/2, 1/2, 0, 1/2, -1/2, 0, -1/2, -1/2, 0, -1/2, 1/2, 0]

/-- The rectangle index array `indices` (lines 166..169): 6 indices forming
2 triangles. -/
def indices : List Nat := [0, 1, 3, 1, 2, 3]

/-- The geometry setup (lines 142..187), in source order. -/
def geometrySetup : List SetupCmd :=
  [.genVertexArrays 1 "VAO", .genBuffers 1 "VBO",
   .bindVertexArray "VAO",
   .bindBuffer .arrayBuffer "VBO",
   .bufferDataF .arrayBuffer vertices GL_STATIC_DRAW,
   .vertexAttribPointer 0 3, .enableVertexAttribArray 0,
   .genVertexArrays 1 "RECT_VAO", .genBuffers 1 "RECT_VBO",
   .bindVertexArray "RECT_VAO",
   .bindBuffer .arrayBuffer "RECT_VBO",
   .bufferDataF .arrayBuffer rect_vertices GL_STATIC_DRAW,
   .genBuffers 1 "EBO",
   .bindBuffer .elementArrayBuffer "EBO",
   .bufferDataU .elementArrayBuffer indices GL_STATIC_DRAW,
   .vertexAttribPointer 0 3, .enableVertexAttribArray 0]

/-- The body of one render-loop iteration (lines 195..207): clear, bind the
program and `RECT_VAO`, draw 6 indices as triangles, unbind. -/
def renderBody : List RenderCmd :=
  [.clearColor (2/10) (3/10) (3/10) 1,
   .clear GL_COLOR_BUFFER_BIT,
   .useProgram,
   .bindVertexArray "RECT_VAO",
   .drawElements GL_TRIANGLES 6 GL_UNSIGNED_INT,
   .bindVertexArray "0"]

/-- All effects of one render-loop iteration: the render body, then
`glfwSwapBuffers` and `glfwPollEvents`. -/
def iterEffs : List Eff :=
  renderBody.map Eff.renderCmd ++ [.swapBuffers, .pollEvents]

/-! ## Window state, input processing and the render loop -/

/-- The GLFW window state the loop observes: the window-should-close flag. -/
structure Window where
  shouldClose : Bool
deriving DecidableEq

/-- The outside events of one loop iteration: whether `glfwGetKey` reports
Escape as pressed, and whether the OS requests a close during
`glfwPollEvents` (clicking the close control). -/
structure IterInput where
  escape : Bool
  osClose : Bool
deriving DecidableEq

/-- `process_input` (lines 47..53): on Escape,
`glfwSetWindowShouldClose(window, true)`; otherwise the window is
untouched. -/
def process_input (w : Window) (escapePressed : Bool) : Window :=
  if escapePressed then { w with shouldClose := true } else w

/-- `glfwPollEvents` as the loop observes it: the OS may set the
window-should-close flag; nothing ever clears it. -/
def pollEventsStep (w : Window) (osClose : Bool) : Window :=
  if osClose then { w with shouldClose := true } else w

/-- One full iteration of the `while` body as it acts on the window state:
`process_input`, then (after rendering and swapping, which do not touch the
flag) `glfwPollEvents`. -/
def loopIter (w : Window) (i : IterInput) : Window :=
  pollEventsStep (process_input w i.escape) i.osClose

/-- The render loop (lines 189..210) observed for a finite list of
per-iteration inputs: `while (!glfwWindowShouldClose(glfw_window))` checks
the flag, then runs one body consuming one input.  Result: `some n` when
the check fails after `n` executed bodies (the loop exits), `none` when
the observed inputs are exhausted with the flag still clear, together with
the final window state. -/
def runLoop (w : Window) (inputs : List IterInput) : Option Nat × Window :=
  if w.shouldClose then (some 0, w)
  else
    match inputs with
    | [] => (none, w)
    | i :: rest =>
      let p := runLoop (loopIter w i) rest
      (p.1.map (fun n => n + 1), p.2)

/-! ## The environment and the transliterated `main` -/

/-- Everything `main` reads from outside the program: the two shader files
(`none` = missing), the results of `glfwInit`, `glfwCreateWindow` and
`gladLoadGLLoader`, the compile-status values the GL driver writes for the
two shaders, the value of the `sp_success` variable after
`glGetProgramiv(shader_program, GL_COMPILE_STATUS, &sp_success)` (an
invalid pname for a program object, which leaves the uninitialized
variable's stack value in place), and the loop inputs. -/
structure Env where
  vsFile : Option (List Byte)
  fsFile : Option (List Byte)
  glfwInitRet : Bool
  windowOk : Bool
  gladOk : Bool
  vs_success : Int
  fs_success : Int
  sp_success : Int
  inputs : List IterInput
deriving DecidableEq

/-- What a run of `main` amounts to: `crashed` for the undefined behavior
of loading a missing shader file, `running` when the observed loop inputs
end with the window still open, `exited trace code` when `main` returns. -/
inductive MainOutcome where
  | crashed
  | running (trace : List Eff)
  | exited (trace : List Eff) (code : Int)
deriving DecidableEq

/-- The trace an outcome carries (`crashed` carries none). -/
def traceOf : MainOutcome → List Eff
  | .crashed => []
  | .running t => t
  | .exited t _ => t

/-- The exit code an outcome carries. -/
def exitCodeOf : MainOutcome → Option Int
  | .exited _ c => some c
  | _ => none

/-- Lines 57..66: the two shader-file reads, `glfwInit()` with its result
discarded, the two context-version hints, and `glfwCreateWindow(
window_width, window_height, "OpenGL experiment", NULL, NULL)` with the
globals at their initial values 1280 and 720. -/
def startupPre (initRet : Bool) : List Eff :=
  [.readFileEff "../src/vertex_shader.glsl",
   .readFileEff "../src/fragment_shader.glsl",
   .glfwInitEff initRet,
   .windowHint GLFW_CONTEXT_VERSION_MAJOR 3,
   .windowHint GLFW_CONTEXT_VERSION_MINOR 3,
   .createWindow 1280 720 "OpenGL experiment"]

/-- Lines 67..72: the failed-window branch prints, terminates GLFW and
returns -1. -/
def windowFailTrace (initRet : Bool) : List Eff :=
  startupPre initRet ++ [.printLine "Failed to create GLFW window", .glfwTerminateEff]

/-- Lines 73..74 and 77: context made current, the framebuffer-size
callback registered (`window_size_callback` is never registered), then
`gladLoadGLLoader` with its result. -/
def afterWindow (initRet : Bool) (gladOk : Bool) : List Eff :=
  startupPre initRet ++
    [.makeContextCurrent, .registerCallback .framebufferSize, .gladLoad gladOk]

/-- Lines 77..80: the failed-GLAD branch prints and returns -1 (without
terminating GLFW). -/
def gladFailTrace (initRet : Bool) : List Eff :=
  afterWindow initRet false ++ [.printLine "Failed to initialize GLAD"]

/-- Lines 94..101 and 110..117: after compiling a shader, `glGetShaderiv`
with `GL_COMPILE_STATUS`, and on failure (`!success`, i.e. the status is 0)
`glGetShaderInfoLog` into the stage's buffer and a printf of that same
buffer. -/
def shaderCheckEffs (kind : ShaderKind) (success : Int) (buf : BufId) (tag : String) :
    List Eff :=
  [.getShaderiv kind GL_COMPILE_STATUS] ++
    if success = 0 then [.getShaderInfoLog kind buf, .printShaderError tag buf] else []

/-- Lines 126..133: `glGetProgramiv(shader_program, GL_COMPILE_STATUS,
&sp_success)` — the source passes `GL_COMPILE_STATUS`, not
`GL_LINK_STATUS` — and, when `sp_success` is 0, `glGetProgramInfoLog` into
`sp_infolog` followed by `printf(..., fs_infolog)`: the printf names the
fragment shader's buffer, not the program buffer just written. -/
def programCheckEffs (sp_success : Int) : List Eff :=
  [.getProgramiv GL_COMPILE_STATUS] ++
    if sp_success = 0 then
      [.getProgramInfoLog .sp,
       .printProgramError "ERROR::SHADER::PROGRAM::COMPILATION_FAILED" .fs]
    else []

/-- Lines 87..140: both shader compilations with their checks, program
creation, attach, link, the program check, `glUseProgram` and the two
`glDeleteShader` calls. -/
def shaderPhase (vs_success fs_success sp_success : Int) : List Eff :=
  [.createShader .vertex, .shaderSource .vertex, .compileShader .vertex] ++
    shaderCheckEffs .vertex vs_success .vs "ERROR::SHADER::VERTEX::COMPILATION_FAILED" ++
    [.createShader .fragment, .shaderSource .fragment, .compileShader .fragment] ++
    shaderCheckEffs .fragment fs_success .fs "ERROR::SHADER::FRAGMENT::COMPILATION_FAILED" ++
    [.createProgram, .attachShader .vertex, .attachShader .fragment, .linkProgram] ++
    programCheckEffs sp_success ++
    [.useProgram, .deleteShader .vertex, .deleteShader .fragment]

/-- Everything before the render loop on the successful path: startup,
GLAD, shaders and the geometry setup. -/
def preLoopTrace (env : Env) : List Eff :=
  afterWindow env.glfwInitRet true ++
    shaderPhase env.vs_success env.fs_success env.sp_success ++
    geometrySetup.map Eff.setupCmd

/-- The trace of a run whose loop exits after `n` iterations: `main` then
calls `glfwTerminate()` and returns 0. -/
def okTrace (env : Env) (n : Nat) : List Eff :=
  preLoopTrace env ++ (List.replicate n iterEffs).flatten ++ [.glfwTerminateEff]

/-- The trace of a run whose observed inputs end with the window still
open: all observed iterations ran. -/
def runningTrace (env : Env) : List Eff :=
  preLoopTrace env ++ (List.replicate env.inputs.length iterEffs).flatten

/-- `main` (lines 55..214), transliterated: read the two shader files (a
missing one crashes inside `read_entire_file`), initialise GLFW ignoring
the result, create the window (on failure print, terminate, return -1),
load GLAD (on failure print, return -1), compile and link the shaders,
upload the geometry, then run the render loop; when the loop exits,
terminate GLFW and return 0. -/
def mainRun (env : Env) : MainOutcome :=
  match read_entire_file env.vsFile, read_entire_file env.fsFile with
  | some _, some _ =>
    if env.windowOk then
      if env.gladOk then
        match runLoop { shouldClose := false } env.inputs with
        | (some n, _) => .exited (okTrace env n) 0
        | (none, _) => .running (runningTrace env)
      else .exited (gladFailTrace env.glfwInitRet) (-1)
    else .exited (windowFailTrace env.glfwInitRet) (-1)
  | _, _ => .crashed

/-! ## Resize callbacks and the global window size -/

/-- The process-wide globals `window_width` and `window_height` (lines
31..32), initialised to 1280 and 720. -/
structure Globals where
  window_width : Int
  window_height : Int
deriving DecidableEq

/-- What one resize-callback invocation does: the globals afterwards and
the `glViewport(x, y, w, h)` rectangle it sets. -/
structure ResizeResult where
  globals : Globals
  viewport : Int × Int × Int × Int
deriving DecidableEq

/-- `window_size_callback` (lines 34..39): stores the new width and height
into the globals, then `glViewport(0, 0, window_width, window_height)`
with the freshly stored values.  Defined in the source but never
registered. -/
def window_size_callback (g : Globals) (width height : Int) : ResizeResult :=
  { globals := { window_width := width, window_height := height },
    viewport := (0, 0, width, height) }

/-- `framebuffer_size_callback` (lines 42..45): only
`glViewport(0, 0, width, height)`; the globals are untouched. -/
def framebuffer_size_callback (g : Globals) (width height : Int) : ResizeResult :=
  { globals := g, viewport := (0, 0, width, height) }

/-- Apply the callback a `CallbackId` names. -/
def dispatchResize : CallbackId → Globals → Int → Int → ResizeResult
  | .framebufferSize => framebuffer_size_callback
  | .windowSize => window_size_callback

/-- The callback `main` registers for resizes, from
`glfwSetFramebufferSizeCallback(glfw_window, framebuffer_size_callback)`
(line 74). -/
def registeredResizeCallback : CallbackId := .framebufferSize

/-- The callback a `registerCallback` effect registers, if the effect is
one. -/
def callbackRegOf : Eff → Option CallbackId
  | .registerCallback c => some c
  | _ => none

/-- All callback registrations of a trace, in order. -/
def registrationsOf (t : List Eff) : List CallbackId :=
  t.filterMap callbackRegOf

/-! ## Trace observations for the geometry claims -/

/-- The handle names of the `glGenVertexArrays` calls of a setup list. -/
def vaoGensOf (l : List SetupCmd) : List String :=
  l.filterMap (fun c => match c with
    | .genVertexArrays _ h => some h
    | _ => none)

/-- The float payloads uploaded with `glBufferData(GL_ARRAY_BUFFER, ...)`. -/
def arrayUploadsOf (l : List SetupCmd) : List (List Rat) :=
  l.filterMap (fun c => match c with
    | .bufferDataF BufTarget.arrayBuffer d _ => some d
    | _ => none)

/-- The index payloads uploaded with
`glBufferData(GL_ELEMENT_ARRAY_BUFFER, ...)`. -/
def elementUploadsOf (l : List SetupCmd) : List (List Nat) :=
  l.filterMap (fun c => match c with
    | .bufferDataU BufTarget.elementArrayBuffer d _ => some d
    | _ => none)

/-- The usage argument of every `glBufferData` call of a setup list. -/
def uploadUsagesOf (l : List SetupCmd) : List Nat :=
  l.filterMap (fun c => match c with
    | .bufferDataF _ _ u => some u
    | .bufferDataU _ _ u => some u
    | _ => none)

/-- Whether an effect uploads geometry data (`glBufferData`). -/
def isGeomUpload : Eff → Bool
  | .setupCmd (.bufferDataF _ _ _) => true
  | .setupCmd (.bufferDataU _ _ _) => true
  | _ => false

/-- Erase the recorded `glfwInit` return value from an effect: the value
`main` discards. -/
def scrubInitRet : Eff → Eff
  | .glfwInitEff _ => .glfwInitEff true
  | e => e

/-! ## Concrete environments for witnesses -/

/-- Two observed loop iterations: one uneventful, then Escape pressed. -/
def sampleInputs : List IterInput :=
  [{ escape := false, osClose := false }, { escape := true, osClose := false }]

/-- A fully successful run: both shader files present, window and GLAD
initialise, all statuses report success, Escape pressed in the second
observed iteration. -/
def envOk : Env :=
  { vsFile := some [118, 115], fsFile := some [102, 115],
    glfwInitRet := true, windowOk := true, gladOk := true,
    vs_success := 1, fs_success := 1, sp_success := 1,
    inputs := sampleInputs }

/-- As `envOk` but `glfwCreateWindow` returns `NULL`. -/
def envWindowFail : Env := { envOk with windowOk := false }

/-- As `envOk` but `gladLoadGLLoader` fails. -/
def envGladFail : Env := { envOk with gladOk := false }

/-! ## The file-loader claims -/

theorem bufWrite_in_bounds (buf : List (Option Byte)) (i : Nat) (v : Byte)
    (h : i < buf.length) : bufWrite buf i v = (buf.set i (some v), []) := by
  simp [bufWrite, h]

theorem bufWrite_out_of_bounds (buf : List (Option Byte)) (i : Nat) (v : Byte)
    (h : ¬ i < buf.length) : bufWrite buf i v = (buf, [i]) := by
  simp [bufWrite, h]

theorem read_entire_file_body_data (content : List Byte) :
    (read_entire_file_body content 0).result.data = content.map some ++ [none] := by
  have hfread : freadInto (mallocBuf (content.length + 1)) (content.drop 0)
      (content.length + 1 - 1) = content.map some ++ [none] := by
    simp [freadInto, mallocBuf, List.drop_replicate]
  have hlen : (content.map some ++ [(none : Option Byte)]).length = content.length + 1 := by
    simp
  have hw : bufWrite (content.map some ++ [none]) (content.length + 1) 0 =
      (content.map some ++ [none], [content.length + 1]) := by
    apply bufWrite_out_of_bounds
    simp [hlen]
  simp only [read_entire_file_body, hfread, hw]

theorem read_entire_file_body_oob (content : List Byte) :
    (read_entire_file_body content 0).oobWrites = [content.length + 1] := by
  have hfread : freadInto (mallocBuf (content.length + 1)) (content.drop 0)
      (content.length + 1 - 1) = content.map some ++ [none] := by
    simp [freadInto, mallocBuf, List.drop_replicate]
  have hw : bufWrite (content.map some ++ [none]) (content.length + 1) 0 =
      (content.map some ++ [none], [content.length + 1]) := by
    apply bufWrite_out_of_bounds
    simp
  simp only [read_entire_file_body, hfread, hw]

/-- C1: for an existing input file of `fileSize` bytes, `read_entire_file`
returns a record whose `size` field is `fileSize + 1`, whose buffer was
allocated with exactly `fileSize + 1` bytes, whose first `fileSize` bytes
are the file's content, and whose final allocated byte is never written
(its value is unspecified, modelled as the uninitialized `none`). -/
theorem read_entire_file_size_and_content (content : List Byte) :
    read_entire_file (some content) = some (read_entire_file_body content 0) ∧
    (read_entire_file_body content 0).result.size = content.length + 1 ∧
    (read_entire_file_body content 0).allocSize = content.length + 1 ∧
    (read_entire_file_body content 0).result.data = content.map some ++ [none] := by
  refine ⟨rfl, rfl, rfl, read_entire_file_body_data content⟩

/-- C2: the terminator store `result.data[result.size] = 0` targets index
`size` of a buffer whose allocation is exactly `size` bytes (its valid
indices being `0 .. size - 1`), so on every input file the store is
recorded as out of bounds: the written index is `≥ allocSize`. -/
theorem terminator_store_out_of_bounds (content : List Byte) :
    (read_entire_file_body content 0).oobWrites = [(read_entire_file_body content 0).result.size] ∧
    (read_entire_file_body content 0).allocSize = (read_entire_file_body content 0).result.size ∧
    (read_entire_file_body content 0).result.data.length = (read_entire_file_body content 0).allocSize ∧
    (read_entire_file_body content 0).allocSize ≤ (read_entire_file_body content 0).result.size := by
  refine ⟨?_, rfl, ?_, Nat.le_refl _⟩
  · exact read_entire_file_body_oob content
  · rw [read_entire_file_body_data content]
    simp [read_entire_file_body]

/-- C3: for every path naming a file that does not exist, `fopen` yields a
null handle and the unchecked `ftell` on it is undefined behavior (a
crash), modelled as `none`. -/
theorem missing_file_undefined_behavior (fileSystem : String → Option (List Byte))
    (filename : String) (h : fileSystem filename = none) :
    read_entire_file_at fileSystem filename = none := by
  simp [read_entire_file_at, read_entire_file, fopen, ftell, h]

theorem missing_file_undefined_behavior_witness :
    read_entire_file_at (fun _ => none) "../src/vertex_shader.glsl" = none :=
  missing_file_undefined_behavior (fun _ => none) "../src/vertex_shader.glsl" rfl

/-! ## Structural lemmas about `mainRun` -/

theorem loopIter_shouldClose (w : Window) (i : IterInput) :
    (loopIter w i).shouldClose = (w.shouldClose || i.escape || i.osClose) := by
  by_cases he : i.escape <;> by_cases ho : i.osClose <;>
    simp [loopIter, process_input, pollEventsStep, he, ho]

theorem runLoop_of_shouldClose (w : Window) (inputs : List IterInput)
    (h : w.shouldClose = true) : runLoop w inputs = (some 0, w) := by
  cases inputs <;> simp [runLoop, h]

theorem mainRun_crash_vs (env : Env) (h : env.vsFile = none) :
    mainRun env = .crashed := by
  unfold mainRun
  rw [h]
  rfl

theorem mainRun_crash_fs (env : Env) (v : List Byte) (hv : env.vsFile = some v)
    (h : env.fsFile = none) : mainRun env = .crashed := by
  unfold mainRun
  rw [hv, h]
  rfl

theorem mainRun_of_files (env : Env) (v f : List Byte) (hv : env.vsFile = some v)
    (hf : env.fsFile = some f) :
    mainRun env =
      (if env.windowOk then
        if env.gladOk then
          match runLoop { shouldClose := false } env.inputs with
          | (some n, _) => .exited (okTrace env n) 0
          | (none, _) => .running (runningTrace env)
        else .exited (gladFailTrace env.glfwInitRet) (-1)
      else .exited (windowFailTrace env.glfwInitRet) (-1)) := by
  unfold mainRun
  rw [hv, hf]
  rfl

theorem registrationsOf_append (a b : List Eff) :
    registrationsOf (a ++ b) = registrationsOf a ++ registrationsOf b := by
  simp [registrationsOf, List.filterMap_append]

theorem registrationsOf_shaderCheck (k : ShaderKind) (s : Int) (b : BufId) (t : String) :
    registrationsOf (shaderCheckEffs k s b t) = [] := by
  unfold shaderCheckEffs
  split <;> simp [registrationsOf, List.filterMap, callbackRegOf]

theorem registrationsOf_programCheck (s : Int) :
    registrationsOf (programCheckEffs s) = [] := by
  unfold programCheckEffs
  split <;> simp [registrationsOf, List.filterMap, callbackRegOf]

theorem registrationsOf_shaderPhase (a b c : Int) :
    registrationsOf (shaderPhase a b c) = [] := by
  unfold shaderPhase
  rw [registrationsOf_append, registrationsOf_append, registrationsOf_append,
    registrationsOf_append, registrationsOf_append, registrationsOf_append,
    registrationsOf_shaderCheck, registrationsOf_shaderCheck, registrationsOf_programCheck]
  simp [registrationsOf, List.filterMap, callbackRegOf]

theorem registrationsOf_setup :
    registrationsOf (geometrySetup.map Eff.setupCmd) = [] := by
  simp [registrationsOf, geometrySetup, List.filterMap, callbackRegOf]

theorem registrationsOf_startupPre (b : Bool) :
    registrationsOf (startupPre b) = [] := by
  simp [registrationsOf, startupPre, List.filterMap, callbackRegOf]

theorem registrationsOf_afterWindow (b g : Bool) :
    registrationsOf (afterWindow b g) = [CallbackId.framebufferSize] := by
  rw [afterWindow, registrationsOf_append, registrationsOf_startupPre]
  simp [registrationsOf, List.filterMap, callbackRegOf]

theorem registrationsOf_iter : registrationsOf iterEffs = [] := by
  simp [registrationsOf, iterEffs, renderBody, List.filterMap, callbackRegOf]

theorem registrationsOf_loop (n : Nat) :
    registrationsOf ((List.replicate n iterEffs).flatten) = [] := by
  induction n with
  | zero => rfl
  | succ k ih =>
    rw [List.replicate_succ, List.flatten_cons, registrationsOf_append,
      registrationsOf_iter, ih]
    rfl

theorem registrationsOf_preLoop (env : Env) :
    registrationsOf (preLoopTrace env) = [CallbackId.framebufferSize] := by
  rw [preLoopTrace, registrationsOf_append, registrationsOf_append,
    registrationsOf_afterWindow, registrationsOf_shaderPhase, registrationsOf_setup]
  rfl

theorem noUpload_iter : iterEffs.all (fun e => !(isGeomUpload e)) = true := by
  decide

theorem noUpload_loop (n : Nat) :
    ((List.replicate n iterEffs).flatten.all (fun e => !(isGeomUpload e))) = true := by
  induction n with
  | zero => rfl
  | succ k ih =>
    rw [List.replicate_succ, List.flatten_cons, List.all_append, noUpload_iter, ih]
    rfl

/-! ## The claims about the shader program checks -/

/-- C4 (evaluating the code at the failing point): the status query that
follows `glLinkProgram` passes `GL_COMPILE_STATUS` (0x8B81) to
`glGetProgramiv` — an enum that is not the program's link status
(`GL_LINK_STATUS`, 0x8B82) — whatever value `sp_success` then holds. -/
theorem program_status_query_uses_compile_status (s : Int) :
    (programCheckEffs s).head? = some (.getProgramiv GL_COMPILE_STATUS) ∧
    decide (GL_COMPILE_STATUS = GL_LINK_STATUS) = false ∧
    GL_COMPILE_STATUS = 0x8B81 ∧ GL_LINK_STATUS = 0x8B82 :=
  ⟨rfl, by decide, rfl, rfl⟩

/-- C5: whenever the program-status check fails (`sp_success` is 0), the
retrieval writes the program's own log buffer `sp_infolog`, but the
diagnostic printf names the fragment shader's buffer `fs_infolog` — a
different buffer — regardless of which stage caused the failure. -/
theorem link_failure_prints_fragment_buffer (s : Int) (h : s = 0) :
    programCheckEffs s =
      [.getProgramiv GL_COMPILE_STATUS, .getProgramInfoLog .sp,
       .printProgramError "ERROR::SHADER::PROGRAM::COMPILATION_FAILED" .fs] ∧
    decide (BufId.fs = BufId.sp) = false := by
  subst h
  exact ⟨rfl, by decide⟩

theorem link_failure_prints_fragment_buffer_witness :
    programCheckEffs 0 =
      [.getProgramiv GL_COMPILE_STATUS, .getProgramInfoLog .sp,
       .printProgramError "ERROR::SHADER::PROGRAM::COMPILATION_FAILED" .fs] ∧
    decide (BufId.fs = BufId.sp) = false :=
  link_failure_prints_fragment_buffer 0 rfl

/-! ## The exit-code and render-loop claims -/

/-- C6: with both shader files present, `main` exits with -1 exactly when
window creation or GLAD initialisation fails, exits with 0 when the render
loop observes the close flag, and produces no exit code other than 0
and -1 in any environment. -/
theorem main_exit_codes (env : Env) :
    (env.vsFile.isSome = true → env.fsFile.isSome = true → env.windowOk = false →
      exitCodeOf (mainRun env) = some (-1)) ∧
    (env.vsFile.isSome = true → env.fsFile.isSome = true → env.windowOk = true →
      env.gladOk = false → exitCodeOf (mainRun env) = some (-1)) ∧
    (env.vsFile.isSome = true → env.fsFile.isSome = true → env.windowOk = true →
      env.gladOk = true → (runLoop { shouldClose := false } env.inputs).1.isSome = true →
      exitCodeOf (mainRun env) = some 0) ∧
    (∀ c, exitCodeOf (mainRun env) = some c → c = 0 ∨ c = -1) := by
  refine ⟨?_, ?_, ?_, ?_⟩
  · intro hv hf hw
    rcases Option.isSome_iff_exists.mp hv with ⟨v, hv2⟩
    rcases Option.isSome_iff_exists.mp hf with ⟨f, hf2⟩
    rw [mainRun_of_files env v f hv2 hf2]
    simp [hw, exitCodeOf]
  · intro hv hf hw hg
    rcases Option.isSome_iff_exists.mp hv with ⟨v, hv2⟩
    rcases Option.isSome_iff_exists.mp hf with ⟨f, hf2⟩
    rw [mainRun_of_files env v f hv2 hf2]
    simp [hw, hg, exitCodeOf]
  · intro hv hf hw hg hr
    rcases Option.isSome_iff_exists.mp hv with ⟨v, hv2⟩
    rcases Option.isSome_iff_exists.mp hf with ⟨f, hf2⟩
    rw [mainRun_of_files env v f hv2 hf2]
    rcases hrl : runLoop { shouldClose := false } env.inputs with ⟨r, wf⟩
    rcases r with _ | n
    · rw [hrl] at hr
      simp at hr
    · simp [hw, hg, hrl, exitCodeOf]
  · intro c hc
    rcases hv : env.vsFile with _ | v
    · rw [mainRun_crash_vs env hv] at hc
      simp [exitCodeOf] at hc
    rcases hf : env.fsFile with _ | f
    · rw [mainRun_crash_fs env v hv hf] at hc
      simp [exitCodeOf] at hc
    rw [mainRun_of_files env v f hv hf] at hc
    by_cases hw : env.windowOk
    · by_cases hg : env.gladOk
      · rcases hrl : runLoop { shouldClose := false } env.inputs with ⟨r, wf⟩
        rcases r with _ | n
        · simp [hw, hg, hrl, exitCodeOf] at hc
        · simp [hw, hg, hrl, exitCodeOf] at hc
          left
          omega
      · simp [hw, hg, exitCodeOf] at hc
        right
        omega
    · simp [hw, exitCodeOf] at hc
      right
      omega

theorem main_exit_codes_witness :
    exitCodeOf (mainRun envWindowFail) = some (-1) ∧
    exitCodeOf (mainRun envGladFail) = some (-1) ∧
    exitCodeOf (mainRun envOk) = some 0 :=
  ⟨(main_exit_codes envWindowFail).1 rfl rfl rfl,
   (main_exit_codes envGladFail).2.1 rfl rfl rfl rfl,
   (main_exit_codes envOk).2.2.1 rfl rfl rfl rfl rfl⟩

/-- C7: the close flag is never cleared by an iteration; a loop whose flag
is already set at the check exits with no further body; a body that sets
the flag is the last one to run (the loop exits after exactly that one
more iteration); and a run that exits with code 0 tears the windowing
system down (`glfwTerminate` is in its trace). -/
theorem close_flag_stops_loop (w : Window) (i : IterInput) (inputs : List IterInput)
    (env : Env) :
    (w.shouldClose = true → (loopIter w i).shouldClose = true) ∧
    (w.shouldClose = true → (runLoop w inputs).1 = some 0) ∧
    (w.shouldClose = false → (loopIter w i).shouldClose = true →
      (runLoop w (i :: inputs)).1 = some 1) ∧
    (exitCodeOf (mainRun env) = some 0 → Eff.glfwTerminateEff ∈ traceOf (mainRun env)) := by
  refine ⟨?_, ?_, ?_, ?_⟩
  · intro h
    rw [loopIter_shouldClose, h]
    simp
  · intro h
    rw [runLoop_of_shouldClose w inputs h]
  · intro h hset
    simp [runLoop, h, runLoop_of_shouldClose (loopIter w i) inputs hset]
  · intro h
    rcases hm : mainRun env with _ | t | ⟨t, c⟩
    · rw [hm] at h
      simp [exitCodeOf] at h
    · rw [hm] at h
      simp [exitCodeOf] at h
    rw [hm] at h
    simp [exitCodeOf] at h
    subst h
    rcases hv : env.vsFile with _ | v
    · rw [mainRun_crash_vs env hv] at hm
      simp at hm
    rcases hf : env.fsFile with _ | f
    · rw [mainRun_crash_fs env v hv hf] at hm
      simp at hm
    rw [mainRun_of_files env v f hv hf] at hm
    by_cases hw : env.windowOk
    · by_cases hg : env.gladOk
      · rcases hrl : runLoop { shouldClose := false } env.inputs with ⟨r, wf⟩
        rcases r with _ | n
        · simp [hw, hg, hrl] at hm
        · simp [hw, hg, hrl] at hm
          subst hm
          simp [traceOf, okTrace, List.mem_append]
      · simp [hw, hg] at hm
    · simp [hw] at hm

theorem close_flag_stops_loop_witness :
    (loopIter { shouldClose := true } { escape := false, osClose := false }).shouldClose = true ∧
    (runLoop { shouldClose := true } ([] : List IterInput)).1 = some 0 ∧
    (runLoop { shouldClose := false } [{ escape := true, osClose := false }]).1 = some 1 ∧
    Eff.glfwTerminateEff ∈ traceOf (mainRun envOk) :=
  ⟨(close_flag_stops_loop { shouldClose := true } { escape := false, osClose := false }
      [] envOk).1 rfl,
   (close_flag_stops_loop { shouldClose := true } { escape := false, osClose := false }
      [] envOk).2.1 rfl,
   (close_flag_stops_loop { shouldClose := false } { escape := true, osClose := false }
      [] envOk).2.2.1 rfl rfl,
   (close_flag_stops_loop { shouldClose := false } { escape := true, osClose := false }
      [] envOk).2.2.2 rfl⟩

/-! ## The resize-callback claim -/

/-- C8 is false on the code: at a concrete resize event (800, 600) the
callback that `main` registered leaves the globals at their old values
(1280, 720), which differ from the event's dimensions. -/
theorem registered_resize_callback_ignores_globals :
    registeredResizeCallback = CallbackId.framebufferSize ∧
    dispatchResize registeredResizeCallback { window_width := 1280, window_height := 720 }
        800 600 =
      { globals := { window_width := 1280, window_height := 720 },
        viewport := (0, 0, 800, 600) } ∧
    decide (({ window_width := 1280, window_height := 720 } : Globals) =
      { window_width := 800, window_height := 600 }) = false :=
  ⟨rfl, rfl, by decide⟩

/-- C8 amended: the registered resize callback
(`framebuffer_size_callback`) only sets the viewport and leaves the
globals unchanged; `window_size_callback`, which would store the new width
and height into the globals, is defined but never registered — the only
callback registration in any run's trace is the framebuffer-size one. -/
theorem resize_callbacks_behavior (g : Globals) (width height : Int) (env : Env) :
    framebuffer_size_callback g width height =
      { globals := g, viewport := (0, 0, width, height) } ∧
    window_size_callback g width height =
      { globals := { window_width := width, window_height := height },
        viewport := (0, 0, width, height) } ∧
    dispatchResize registeredResizeCallback g width height =
      framebuffer_size_callback g width height ∧
    (env.vsFile.isSome = true → env.fsFile.isSome = true → env.windowOk = true →
      registrationsOf (traceOf (mainRun env)) = [CallbackId.framebufferSize]) := by
  refine ⟨rfl, rfl, rfl, ?_⟩
  intro hv hf hw
  rcases Option.isSome_iff_exists.mp hv with ⟨v, hv2⟩
  rcases Option.isSome_iff_exists.mp hf with ⟨f, hf2⟩
  rw [mainRun_of_files env v f hv2 hf2]
  by_cases hg : env.gladOk
  · rcases hrl : runLoop { shouldClose := false } env.inputs with ⟨r, wf⟩
    rcases r with _ | n
    · simp only [hw, hg, hrl, if_true, traceOf]
      rw [runningTrace, registrationsOf_append, registrationsOf_preLoop,
        registrationsOf_loop]
      rfl
    · simp only [hw, hg, hrl, if_true, traceOf]
      rw [okTrace, registrationsOf_append, registrationsOf_append,
        registrationsOf_preLoop, registrationsOf_loop]
      rfl
  · simp only [hw, hg, if_true, if_false, Bool.false_eq_true, traceOf]
    rw [gladFailTrace, registrationsOf_append, registrationsOf_afterWindow]
    rfl

theorem resize_callbacks_behavior_witness :
    registrationsOf (traceOf (mainRun envOk)) = [CallbackId.framebufferSize] :=
  (resize_callbacks_behavior { window_width := 1280, window_height := 720 }
    800 600 envOk).2.2.2 rfl rfl rfl

/-! ## The geometry claim -/

/-- C9 is false on the code: the setup creates two vertex arrays (`VAO`
and `RECT_VAO`) and uploads two array buffers, the first holding 9 floats
(3 vertices of 3 floats — a triangle), not 4 vertices; only the second
upload is the 12-float rectangle. -/
theorem geometry_not_single_piece :
    vaoGensOf geometrySetup = ["VAO", "RECT_VAO"] ∧
    (vaoGensOf geometrySetup).length = 2 ∧
    arrayUploadsOf geometrySetup = [vertices, rect_vertices] ∧
    vertices.length = 9 ∧
    rect_vertices.length = 12 ∧
    decide ((2 : Nat) = 1) = false ∧
    decide ((9 : Nat) = 4 * 3) = false :=
  ⟨rfl, rfl, rfl, rfl, rfl, by decide, by decide⟩

/-- C9 amended: the setup uploads two static pieces of geometry before the
render loop — a 9-float (3-vertex) triangle that is never drawn, and the
12-float (4-vertex) rectangle with its 6 indices forming 2 triangles —
every upload uses `GL_STATIC_DRAW`, no render-loop iteration uploads
buffer data, the loop draws 6 indices from `RECT_VAO`, and on the
successful path the whole setup precedes the loop iterations in the
trace. -/
theorem geometry_two_buffers_static (env : Env) (n : Nat) :
    arrayUploadsOf geometrySetup = [vertices, rect_vertices] ∧
    elementUploadsOf geometrySetup = [indices] ∧
    vertices.length = 3 * 3 ∧
    rect_vertices.length = 4 * 3 ∧
    indices.length = 6 ∧
    uploadUsagesOf geometrySetup = [GL_STATIC_DRAW, GL_STATIC_DRAW, GL_STATIC_DRAW] ∧
    iterEffs.all (fun e => !(isGeomUpload e)) = true ∧
    ((List.replicate n iterEffs).flatten.all (fun e => !(isGeomUpload e))) = true ∧
    RenderCmd.bindVertexArray "RECT_VAO" ∈ renderBody ∧
    RenderCmd.drawElements GL_TRIANGLES 6 GL_UNSIGNED_INT ∈ renderBody ∧
    (env.vsFile.isSome = true → env.fsFile.isSome = true → env.windowOk = true →
      env.gladOk = true →
      (traceOf (mainRun env)).take (preLoopTrace env).length = preLoopTrace env) := by
  refine ⟨rfl, rfl, rfl, rfl, rfl, rfl, noUpload_iter, noUpload_loop n,
    by decide, by decide, ?_⟩
  intro hv hf hw hg
  rcases Option.isSome_iff_exists.mp hv with ⟨v, hv2⟩
  rcases Option.isSome_iff_exists.mp hf with ⟨f, hf2⟩
  rw [mainRun_of_files env v f hv2 hf2]
  rcases hrl : runLoop { shouldClose := false } env.inputs with ⟨r, wf⟩
  rcases r with _ | m
  · simp only [hw, hg, hrl, if_true, traceOf]
    rw [runningTrace]
    exact List.take_left _ _
  · simp only [hw, hg, hrl, if_true, traceOf]
    rw [okTrace, List.append_assoc]
    exact List.take_left _ _

theorem geometry_two_buffers_static_witness :
    (traceOf (mainRun envOk)).take (preLoopTrace envOk).length = preLoopTrace envOk :=
  (geometry_two_buffers_static envOk 1).2.2.2.2.2.2.2.2.2.2 rfl rfl rfl rfl

/-! ## The unchecked `glfwInit` claim -/

theorem scrub_startupPre (b : Bool) :
    (startupPre b).map scrubInitRet = startupPre true := rfl

theorem scrub_windowFail (b : Bool) :
    (windowFailTrace b).map scrubInitRet = windowFailTrace true := rfl

theorem scrub_afterWindow (b g : Bool) :
    (afterWindow b g).map scrubInitRet = afterWindow true g := rfl

theorem scrub_gladFail (b : Bool) :
    (gladFailTrace b).map scrubInitRet = gladFailTrace true := rfl

theorem scrub_id_shaderCheck (k : ShaderKind) (s : Int) (b : BufId) (t : String) :
    (shaderCheckEffs k s b t).map scrubInitRet = shaderCheckEffs k s b t := by
  unfold shaderCheckEffs
  split <;> rfl

theorem scrub_id_programCheck (s : Int) :
    (programCheckEffs s).map scrubInitRet = programCheckEffs s := by
  unfold programCheckEffs
  split <;> rfl

theorem scrub_id_shaderPhase (a b c : Int) :
    (shaderPhase a b c).map scrubInitRet = shaderPhase a b c := by
  unfold shaderPhase
  simp only [List.map_append, scrub_id_shaderCheck, scrub_id_programCheck]
  rfl

theorem scrub_id_loop (n : Nat) :
    ((List.replicate n iterEffs).flatten).map scrubInitRet =
      (List.replicate n iterEffs).flatten := by
  induction n with
  | zero => rfl
  | succ k ih =>
    rw [List.replicate_succ, List.flatten_cons, List.map_append, ih]
    rfl

theorem scrub_preLoop (env : Env) (b : Bool) :
    (preLoopTrace { env with glfwInitRet := b }).map scrubInitRet =
      preLoopTrace { env with glfwInitRet := true } := by
  unfold preLoopTrace
  simp only [List.map_append, scrub_id_shaderPhase]
  rw [show ((afterWindow (Env.glfwInitRet { env with glfwInitRet := b }) true).map
    scrubInitRet) = afterWindow true true from rfl]
  rfl

theorem scrub_okTrace (env : Env) (b : Bool) (n : Nat) :
    (okTrace { env with glfwInitRet := b } n).map scrubInitRet =
      okTrace { env with glfwInitRet := true } n := by
  unfold okTrace
  simp only [List.map_append, scrub_preLoop, scrub_id_loop]
  rfl

theorem scrub_runningTrace (env : Env) (b : Bool) :
    (runningTrace { env with glfwInitRet := b }).map scrubInitRet =
      runningTrace { env with glfwInitRet := true } := by
  unfold runningTrace
  simp only [List.map_append, scrub_preLoop, scrub_id_loop]

theorem mainRun_initRet_invariant (vs fs : Option (List Byte)) (b wOk gOk : Bool)
    (a c d : Int) (ins : List IterInput) :
    exitCodeOf (mainRun ⟨vs, fs, b, wOk, gOk, a, c, d, ins⟩) =
      exitCodeOf (mainRun ⟨vs, fs, true, wOk, gOk, a, c, d, ins⟩) ∧
    (traceOf (mainRun ⟨vs, fs, b, wOk, gOk, a, c, d, ins⟩)).map scrubInitRet =
      (traceOf (mainRun ⟨vs, fs, true, wOk, gOk, a, c, d, ins⟩)).map scrubInitRet := by
  rcases vs with _ | v
  · exact ⟨rfl, rfl⟩
  rcases fs with _ | f
  · exact ⟨rfl, rfl⟩
  rw [mainRun_of_files ⟨some v, some f, b, wOk, gOk, a, c, d, ins⟩ v f rfl rfl,
    mainRun_of_files ⟨some v, some f, true, wOk, gOk, a, c, d, ins⟩ v f rfl rfl]
  by_cases hw : wOk
  · by_cases hg : gOk
    · rcases hrl : runLoop { shouldClose := false } ins with ⟨r, wf⟩
      rcases r with _ | n
      · simp only [hw, hg, hrl, if_true, traceOf, exitCodeOf]
        exact ⟨trivial, (scrub_runningTrace ⟨some v, some f, b, wOk, gOk, a, c, d, ins⟩ b).trans
          (scrub_runningTrace ⟨some v, some f, true, wOk, gOk, a, c, d, ins⟩ true).symm⟩
      · simp only [hw, hg, hrl, if_true, traceOf, exitCodeOf]
        exact ⟨trivial, (scrub_okTrace ⟨some v, some f, b, wOk, gOk, a, c, d, ins⟩ b n).trans
          (scrub_okTrace ⟨some v, some f, true, wOk, gOk, a, c, d, ins⟩ true n).symm⟩
    · simp only [hw, hg, if_true, if_false, Bool.false_eq_true, traceOf, exitCodeOf]
      exact ⟨trivial, (scrub_gladFail b).trans (scrub_gladFail true).symm⟩
  · simp only [hw, if_false, Bool.false_eq_true, traceOf, exitCodeOf]
    exact ⟨trivial, (scrub_windowFail b).trans (scrub_windowFail true).symm⟩

/-- C10: the result of `glfwInit()` is discarded — apart from the recorded
return value itself, the run (its exit code and its whole effect trace) is
the same whatever `glfwInit` returns; even with a failed `glfwInit`,
startup continues unconditionally to `glfwCreateWindow`, and when window
creation and GLAD succeed, init failure produces no -1 exit (the run
proceeds to the loop and exits 0 or keeps running): library-init failure
is not in the fatal-startup-failure class. -/
theorem glfw_init_result_unchecked (env : Env) (b1 b2 : Bool) :
    (exitCodeOf (mainRun { env with glfwInitRet := b1 }) =
      exitCodeOf (mainRun { env with glfwInitRet := b2 })) ∧
    ((traceOf (mainRun { env with glfwInitRet := b1 })).map scrubInitRet =
      (traceOf (mainRun { env with glfwInitRet := b2 })).map scrubInitRet) ∧
    (env.vsFile.isSome = true → env.fsFile.isSome = true →
      Eff.createWindow 1280 720 "OpenGL experiment" ∈
        traceOf (mainRun { env with glfwInitRet := false })) ∧
    (env.vsFile.isSome = true → env.fsFile.isSome = true → env.windowOk = true →
      env.gladOk = true →
      (exitCodeOf (mainRun { env with glfwInitRet := false }) = none ∨
        exitCodeOf (mainRun { env with glfwInitRet := false }) = some 0)) := by
  refine ⟨(mainRun_initRet_invariant env.vsFile env.fsFile b1 env.windowOk env.gladOk
        env.vs_success env.fs_success env.sp_success env.inputs).1.trans
      (mainRun_initRet_invariant env.vsFile env.fsFile b2 env.windowOk env.gladOk
        env.vs_success env.fs_success env.sp_success env.inputs).1.symm,
    (mainRun_initRet_invariant env.vsFile env.fsFile b1 env.windowOk env.gladOk
        env.vs_success env.fs_success env.sp_success env.inputs).2.trans
      (mainRun_initRet_invariant env.vsFile env.fsFile b2 env.windowOk env.gladOk
        env.vs_success env.fs_success env.sp_success env.inputs).2.symm, ?_, ?_⟩
  · intro hv hf
    rcases Option.isSome_iff_exists.mp hv with ⟨v, hv2⟩
    rcases Option.isSome_iff_exists.mp hf with ⟨f, hf2⟩
    rw [mainRun_of_files { env with glfwInitRet := false } v f hv2 hf2]
    by_cases hw : env.windowOk
    · by_cases hg : env.gladOk
      · rcases hrl : runLoop { shouldClose := false } env.inputs with ⟨r, wf⟩
        rcases r with _ | n
        · simp [hw, hg, hrl, traceOf, runningTrace, preLoopTrace, afterWindow,
            startupPre, List.mem_append]
        · simp [hw, hg, hrl, traceOf, okTrace, preLoopTrace, afterWindow,
            startupPre, List.mem_append]
      · simp [hw, hg, traceOf, gladFailTrace, afterWindow, startupPre,
          List.mem_append]
    · simp [hw, traceOf, windowFailTrace, startupPre, List.mem_append]
  · intro hv hf hw hg
    rcases Option.isSome_iff_exists.mp hv with ⟨v, hv2⟩
    rcases Option.isSome_iff_exists.mp hf with ⟨f, hf2⟩
    rw [mainRun_of_files { env with glfwInitRet := false } v f hv2 hf2]
    rcases hrl : runLoop { shouldClose := false } env.inputs with ⟨r, wf⟩
    rcases r with _ | n
    · left
      simp [hw, hg, hrl, exitCodeOf]
    · right
      simp [hw, hg, hrl, exitCodeOf]

theorem glfw_init_result_unchecked_witness :
    exitCodeOf (mainRun { envOk with glfwInitRet := false }) =
      exitCodeOf (mainRun { envOk with glfwInitRet := true }) ∧
    Eff.createWindow 1280 720 "OpenGL experiment" ∈
      traceOf (mainRun { envOk with glfwInitRet := false }) ∧
    (exitCodeOf (mainRun { envOk with glfwInitRet := false }) = none ∨
      exitCodeOf (mainRun { envOk with glfwInitRet := false }) = some 0) :=
  ⟨(glfw_init_result_unchecked envOk false true).1,
   (glfw_init_result_unchecked envOk false true).2.2.1 rfl rfl,
   (glfw_init_result_unchecked envOk false true).2.2.2 rfl rfl rfl rfl⟩
